import Mathlib

/-!
Verification of the GUID formatting core of the libyal template repository.

The repository slice contains the declaration of the formatter
(`pyyal_guid.h`, symbol `${python_module_name}_string_new_from_guid`) and
generated test scaffolding; the formatter body itself is not part of the
slice, so the operation is modelled from the specification and the claims
are settled against that model.
-/

deriving instance DecidableEq for Except

namespace Libyal

/-- Error kinds reported by the formatter. -/
inductive ErrorKind where
  | invalidArgument
  | allocationFailure
deriving DecidableEq, Repr

/-- An error value: a kind together with a descriptive message. -/
structure GuidError where
  kind : ErrorKind
  message : String
deriving DecidableEq, Repr

/-- Lowercase hexadecimal digit character for a value below 16
(codepoint 48 is the digit zero, codepoint 97 is the letter a). -/
def hexDigit (n : Nat) : Char :=
  if n < 10 then Char.ofNat (48 + n) else Char.ofNat (87 + n)

/-- Render a natural number as exactly `w` lowercase hexadecimal digits,
zero padded, most significant digit first. -/
def hexPad : Nat → Nat → List Char
  | _, 0 => []
  | n, w + 1 => hexPad (n / 16) w ++ [hexDigit (n % 16)]

/-- One byte rendered as two lowercase hexadecimal digits, in stored order. -/
def byteHex (b : Nat) : List Char := hexPad b 2

/-- Little-endian decoding of four bytes into an unsigned 32-bit value. -/
def le32 (b0 b1 b2 b3 : Nat) : Nat :=
  b0 + b1 * 256 + b2 * 65536 + b3 * 16777216

/-- Little-endian decoding of two bytes into an unsigned 16-bit value. -/
def le16 (b0 b1 : Nat) : Nat := b0 + b1 * 256

/-- Modelled from the spec: the rendering step of the formatter.  The first
three fields (`time_low`, bytes 0-3; `time_mid`, bytes 4-5;
`time_hi_and_version`, bytes 6-7) are decoded as little-endian integers and
rendered as 8, 4 and 4 lowercase hex digits; `clock_seq` (bytes 8-9) and
`node` (bytes 10-15) are rendered byte by byte in stored order; the five
groups are joined with hyphens. -/
def renderGuid (b : List Nat) : List Char :=
  hexPad (le32 (b.getD 0 0) (b.getD 1 0) (b.getD 2 0) (b.getD 3 0)) 8 ++ ['-'] ++
  hexPad (le16 (b.getD 4 0) (b.getD 5 0)) 4 ++ ['-'] ++
  hexPad (le16 (b.getD 6 0) (b.getD 7 0)) 4 ++ ['-'] ++
  byteHex (b.getD 8 0) ++ byteHex (b.getD 9 0) ++ ['-'] ++
  byteHex (b.getD 10 0) ++ byteHex (b.getD 11 0) ++ byteHex (b.getD 12 0) ++
  byteHex (b.getD 13 0) ++ byteHex (b.getD 14 0) ++ byteHex (b.getD 15 0)

/-- Modelled from the spec: `${python_module_name}_string_new_from_guid` is
only declared in `pyyal_guid.h`; its body is not in the repository slice.
Following the specification, the formatter first checks that the buffer is
present (else `InvalidArgument`, "missing buffer"), then that the declared
size equals exactly 16 (else `InvalidArgument`, "unsupported buffer size");
the output-string allocation is modelled by the oracle `alloc_ok` (else
`AllocationFailure`); on success it returns the canonical 8-4-4-4-12
lowercase hexadecimal rendering of the 16 bytes. -/
def string_new_from_guid (buffer : Option (List Nat)) (buffer_size : Nat)
    (alloc_ok : Bool) : Except GuidError String :=
  match buffer with
  | none => .error ⟨ErrorKind.invalidArgument, "missing buffer"⟩
  | some b =>
      if buffer_size ≠ 16 then
        .error ⟨ErrorKind.invalidArgument, "unsupported buffer size"⟩
      else if alloc_ok then .ok ⟨renderGuid b⟩
      else .error ⟨ErrorKind.allocationFailure, "unable to create string object"⟩

/-- A character is a lowercase hexadecimal digit: 0-9 or a-f. -/
def isHexLower (c : Char) : Bool :=
  (decide (48 ≤ c.toNat) && decide (c.toNat ≤ 57)) ||
  (decide (97 ≤ c.toNat) && decide (c.toNat ≤ 102))

/-- The canonical GUID string shape of the specification's regular
expression: five groups of lowercase hexadecimal digits of lengths 8, 4, 4,
4 and 12, separated by single hyphens. -/
def matchesGuidPattern (l : List Char) : Prop :=
  ∃ g1 g2 g3 g4 g5 : List Char,
    l = g1 ++ ['-'] ++ g2 ++ ['-'] ++ g3 ++ ['-'] ++ g4 ++ ['-'] ++ g5 ∧
    g1.length = 8 ∧ g2.length = 4 ∧ g3.length = 4 ∧ g4.length = 4 ∧
    g5.length = 12 ∧
    ∀ c ∈ g1 ++ g2 ++ g3 ++ g4 ++ g5, isHexLower c = true

theorem hexPad_length (n w : Nat) : (hexPad n w).length = w := by
  induction w generalizing n with
  | zero => rfl
  | succ w ih => simp [hexPad, ih]

theorem hexDigit_isHexLower : ∀ m, m < 16 → isHexLower (hexDigit m) = true := by
  decide

theorem hexPad_isHexLower (n w : Nat) :
    ∀ c ∈ hexPad n w, isHexLower c = true := by
  induction w generalizing n with
  | zero => intro c hc; simp [hexPad] at hc
  | succ w ih =>
    intro c hc
    simp only [hexPad, List.mem_append, List.mem_singleton] at hc
    rcases hc with h | h
    · exact ih _ _ h
    · subst h
      exact hexDigit_isHexLower _ (Nat.mod_lt _ (by decide))

example : string_new_from_guid
    (some [0, 1, 2, 3, 4, 5, 6, 7, 8, 9, 10, 11, 12, 13, 14, 15]) 16 true =
    .ok "03020100-0504-0706-0809-0a0b0c0d0e0f" := by decide

theorem take8_of_append (l1 l2 : List Char) (h : l1.length = 8) :
    (l1 ++ l2).take 8 = l1 := by
  rw [← h]; exact List.take_left l1 l2

theorem drop8_of_append (l1 l2 : List Char) (h : l1.length = 8) :
    (l1 ++ l2).drop 8 = l2 := by
  rw [← h]; exact List.drop_left l1 l2

theorem append_isHexLower {l1 l2 : List Char}
    (h1 : ∀ c ∈ l1, isHexLower c = true) (h2 : ∀ c ∈ l2, isHexLower c = true) :
    ∀ c ∈ l1 ++ l2, isHexLower c = true := by
  intro c hc
  rcases List.mem_append.mp hc with h | h
  · exact h1 c h
  · exact h2 c h

/-- C1: for every 16-byte buffer, the formatter decodes bytes 0-3, 4-5 and
6-7 as little-endian unsigned integers and renders bytes 8-9 and 10-15 in
stored byte order; in particular the bytes 00 01 02 03 04 05 06 07 08 09 0a
0b 0c 0d 0e 0f produce exactly "03020100-0504-0706-0809-0a0b0c0d0e0f". -/
theorem guid_little_endian_fields
    (b0 b1 b2 b3 b4 b5 b6 b7 b8 b9 b10 b11 b12 b13 b14 b15 : Nat) :
    string_new_from_guid
        (some [b0, b1, b2, b3, b4, b5, b6, b7, b8, b9, b10, b11, b12, b13, b14, b15])
        16 true =
      .ok ⟨hexPad (b0 + b1 * 256 + b2 * 65536 + b3 * 16777216) 8 ++ ['-'] ++
           hexPad (b4 + b5 * 256) 4 ++ ['-'] ++
           hexPad (b6 + b7 * 256) 4 ++ ['-'] ++
           hexPad b8 2 ++ hexPad b9 2 ++ ['-'] ++
           hexPad b10 2 ++ hexPad b11 2 ++ hexPad b12 2 ++
           hexPad b13 2 ++ hexPad b14 2 ++ hexPad b15 2⟩ ∧
    string_new_from_guid
        (some [0, 1, 2, 3, 4, 5, 6, 7, 8, 9, 10, 11, 12, 13, 14, 15]) 16 true =
      .ok "03020100-0504-0706-0809-0a0b0c0d0e0f" := by
  exact ⟨rfl, by decide⟩

/-- C2: for every buffer of exactly 16 bytes the formatter succeeds and the
result is a 36-character string of lowercase hexadecimal digits grouped
8-4-4-4-12 with hyphens. -/
theorem guid_output_shape (b : List Nat) (hlen : b.length = 16) :
    ∃ s : String, string_new_from_guid (some b) 16 true = .ok s ∧
      s.length = 36 ∧ matchesGuidPattern s.data := by
  refine ⟨⟨renderGuid b⟩, rfl, ?_, ?_⟩
  · show (renderGuid b).length = 36
    simp [renderGuid, byteHex, hexPad_length]
  · refine ⟨hexPad (le32 (b.getD 0 0) (b.getD 1 0) (b.getD 2 0) (b.getD 3 0)) 8,
      hexPad (le16 (b.getD 4 0) (b.getD 5 0)) 4,
      hexPad (le16 (b.getD 6 0) (b.getD 7 0)) 4,
      byteHex (b.getD 8 0) ++ byteHex (b.getD 9 0),
      byteHex (b.getD 10 0) ++ byteHex (b.getD 11 0) ++ byteHex (b.getD 12 0) ++
        byteHex (b.getD 13 0) ++ byteHex (b.getD 14 0) ++ byteHex (b.getD 15 0),
      ?_, ?_, ?_, ?_, ?_, ?_, ?_⟩
    · show renderGuid b = _
      simp [renderGuid, List.append_assoc]
    · exact hexPad_length _ 8
    · exact hexPad_length _ 4
    · exact hexPad_length _ 4
    · simp [byteHex, hexPad_length]
    · simp [byteHex, hexPad_length]
    · intro c hc
      simp only [List.mem_append, byteHex] at hc
      have hx : ∃ n w, c ∈ hexPad n w := by
        casesm* _ ∨ _ <;> exact ⟨_, _, by assumption⟩
      obtain ⟨n, w, hnw⟩ := hx
      exact hexPad_isHexLower n w c hnw

/-- C2 witness: the shape guarantee instantiated at the concrete buffer
00 01 02 03 04 05 06 07 08 09 0a 0b 0c 0d 0e 0f. -/
theorem guid_output_shape_witness :
    ∃ s : String,
      string_new_from_guid
          (some [0, 1, 2, 3, 4, 5, 6, 7, 8, 9, 10, 11, 12, 13, 14, 15]) 16 true =
        .ok s ∧ s.length = 36 ∧ matchesGuidPattern s.data :=
  guid_output_shape [0, 1, 2, 3, 4, 5, 6, 7, 8, 9, 10, 11, 12, 13, 14, 15]
    (by decide)

/-- C3: a present buffer whose declared size is anything other than exactly
16 fails with InvalidArgument ("unsupported buffer size") and yields no
output string; the check is a strict equality. -/
theorem guid_size_strict (b : List Nat) (size : Nat) (a : Bool)
    (h : size ≠ 16) :
    string_new_from_guid (some b) size a =
      .error ⟨ErrorKind.invalidArgument, "unsupported buffer size"⟩ ∧
    ∀ s : String, string_new_from_guid (some b) size a ≠ .ok s := by
  have he : string_new_from_guid (some b) size a =
      .error ⟨ErrorKind.invalidArgument, "unsupported buffer size"⟩ := by
    simp [string_new_from_guid, h]
  refine ⟨he, fun s hs => ?_⟩
  rw [he] at hs
  exact Except.noConfusion hs

/-- C3 witness: a 17-declared-size call fails with the unsupported-size
error. -/
theorem guid_size_strict_witness :
    string_new_from_guid (some []) 17 true =
      .error ⟨ErrorKind.invalidArgument, "unsupported buffer size"⟩ :=
  (guid_size_strict [] 17 true (by decide)).1

/-- C4: a null buffer fails with InvalidArgument ("missing buffer"), and the
null check precedes the size check: even when the declared size also differs
from 16 the reported failure is the missing-buffer one. -/
theorem guid_null_buffer_first (size : Nat) (a : Bool) :
    string_new_from_guid none size a =
      .error ⟨ErrorKind.invalidArgument, "missing buffer"⟩ ∧
    (size ≠ 16 →
      string_new_from_guid none size a ≠
        .error ⟨ErrorKind.invalidArgument, "unsupported buffer size"⟩) := by
  refine ⟨rfl, fun _ hc => ?_⟩
  simp [string_new_from_guid] at hc

/-- C4 witness: a null buffer with declared size 0 (also not 16) reports the
missing-buffer error, not the unsupported-size one. -/
theorem guid_null_buffer_first_witness :
    string_new_from_guid none 0 true =
      .error ⟨ErrorKind.invalidArgument, "missing buffer"⟩ ∧
    string_new_from_guid none 0 true ≠
      .error ⟨ErrorKind.invalidArgument, "unsupported buffer size"⟩ :=
  ⟨(guid_null_buffer_first 0 true).1, (guid_null_buffer_first 0 true).2 (by decide)⟩

/-- C5: whenever the formatter fails, the failure kind is InvalidArgument or
AllocationFailure and no output string is produced for that input. -/
theorem guid_failure_no_output (buffer : Option (List Nat)) (size : Nat)
    (a : Bool) (e : GuidError)
    (h : string_new_from_guid buffer size a = .error e) :
    (e.kind = ErrorKind.invalidArgument ∨ e.kind = ErrorKind.allocationFailure) ∧
    ∀ s : String, string_new_from_guid buffer size a ≠ .ok s := by
  refine ⟨?_, fun s hs => by rw [h] at hs; exact Except.noConfusion hs⟩
  rcases buffer with _ | b
  · simp only [string_new_from_guid] at h
    injection h with h
    subst h
    left; rfl
  · simp only [string_new_from_guid] at h
    split at h
    · injection h with h
      subst h
      left; rfl
    · split at h
      · exact Except.noConfusion h
      · injection h with h
        subst h
        right; rfl

/-- C5 witness: the null-buffer failure produces no output string. -/
theorem guid_failure_no_output_witness :
    string_new_from_guid none 16 true ≠
      .ok "00000000-0000-0000-0000-000000000000" :=
  (guid_failure_no_output none 16 true
    ⟨ErrorKind.invalidArgument, "missing buffer"⟩ rfl).2 _

/-- C6: the formatter is deterministic — byte-identical inputs yield
byte-identical results; in the model it is a pure function of its arguments
with no persistent state. -/
theorem guid_deterministic (b1 b2 : List Nat) (size : Nat) (a : Bool)
    (h : b1 = b2) :
    string_new_from_guid (some b1) size a =
      string_new_from_guid (some b2) size a := by
  rw [h]

/-- C6 witness: determinism at a concrete 16-byte buffer. -/
theorem guid_deterministic_witness :
    string_new_from_guid (some [0, 1, 2, 3, 4, 5, 6, 7, 8, 9, 10, 11, 12, 13, 14, 15])
        16 true =
      string_new_from_guid (some [0, 1, 2, 3, 4, 5, 6, 7, 8, 9, 10, 11, 12, 13, 14, 15])
        16 true :=
  guid_deterministic _ _ 16 true rfl

/-- C7: changing only byte 0 of a 16-byte input changes only the first
8-hex-digit time_low portion of the output, which equals the little-endian
decoding of bytes 0-3 rendered in hex; everything after the first 8
characters is unchanged. -/
theorem guid_byte0_locality
    (b0 c0 b1 b2 b3 b4 b5 b6 b7 b8 b9 b10 b11 b12 b13 b14 b15 : Nat)
    (s t : String)
    (hs : string_new_from_guid
        (some [b0, b1, b2, b3, b4, b5, b6, b7, b8, b9, b10, b11, b12, b13, b14, b15])
        16 true = .ok s)
    (ht : string_new_from_guid
        (some [c0, b1, b2, b3, b4, b5, b6, b7, b8, b9, b10, b11, b12, b13, b14, b15])
        16 true = .ok t) :
    s.data.drop 8 = t.data.drop 8 ∧
    s.data.take 8 = hexPad (b0 + b1 * 256 + b2 * 65536 + b3 * 16777216) 8 ∧
    t.data.take 8 = hexPad (c0 + b1 * 256 + b2 * 65536 + b3 * 16777216) 8 := by
  have hs2 : Except.ok (ε := GuidError)
      (⟨renderGuid [b0, b1, b2, b3, b4, b5, b6, b7, b8, b9, b10, b11, b12, b13, b14, b15]⟩ : String) =
      Except.ok s := hs
  have ht2 : Except.ok (ε := GuidError)
      (⟨renderGuid [c0, b1, b2, b3, b4, b5, b6, b7, b8, b9, b10, b11, b12, b13, b14, b15]⟩ : String) =
      Except.ok t := ht
  injection hs2 with hs3
  injection ht2 with ht3
  subst hs3
  subst ht3
  have hr : ∀ x : Nat,
      renderGuid [x, b1, b2, b3, b4, b5, b6, b7, b8, b9, b10, b11, b12, b13, b14, b15] =
      hexPad (le32 x b1 b2 b3) 8 ++
        (['-'] ++ hexPad (le16 b4 b5) 4 ++ ['-'] ++ hexPad (le16 b6 b7) 4 ++ ['-'] ++
         byteHex b8 ++ byteHex b9 ++ ['-'] ++ byteHex b10 ++ byteHex b11 ++
         byteHex b12 ++ byteHex b13 ++ byteHex b14 ++ byteHex b15) := by
    intro x
    simp [renderGuid, List.append_assoc]
  refine ⟨?_, ?_, ?_⟩
  · show (renderGuid _).drop 8 = (renderGuid _).drop 8
    rw [hr b0, hr c0, drop8_of_append _ _ (hexPad_length _ 8),
      drop8_of_append _ _ (hexPad_length _ 8)]
  · show (renderGuid _).take 8 = _
    rw [hr b0, take8_of_append _ _ (hexPad_length _ 8)]
    rfl
  · show (renderGuid _).take 8 = _
    rw [hr c0, take8_of_append _ _ (hexPad_length _ 8)]
    rfl

/-- C7 witness: byte 0 changed from 00 to ff leaves everything after the
first 8 characters unchanged and updates only the time_low rendering. -/
theorem guid_byte0_locality_witness :
    ("03020100-0504-0706-0809-0a0b0c0d0e0f" : String).data.drop 8 =
      ("030201ff-0504-0706-0809-0a0b0c0d0e0f" : String).data.drop 8 ∧
    ("03020100-0504-0706-0809-0a0b0c0d0e0f" : String).data.take 8 =
      hexPad (0 + 1 * 256 + 2 * 65536 + 3 * 16777216) 8 ∧
    ("030201ff-0504-0706-0809-0a0b0c0d0e0f" : String).data.take 8 =
      hexPad (255 + 1 * 256 + 2 * 65536 + 3 * 16777216) 8 :=
  guid_byte0_locality 0 255 1 2 3 4 5 6 7 8 9 10 11 12 13 14 15
    "03020100-0504-0706-0809-0a0b0c0d0e0f" "030201ff-0504-0706-0809-0a0b0c0d0e0f"
    (by decide) (by decide)

end Libyal
